import Mathlib

set_option maxHeartbeats 1600000

/-!
Verification of the synthetic sales-dataset generators of this repository
(`demo_data.py`, with an inlined copy in `app.py`).

Modelling conventions (shallow embedding):

* Numbers are exact rationals (`ℚ`); Python `round(x, 2)` / pandas `.round(2)`
  (both round-half-to-even) are modelled by `round2`, and `int(x)` (truncation
  toward zero) by `pyInt`.
* The process-global numpy random stream is abstracted into an `Entropy`
  record: one stream per random call site, in the order the source consumes
  them.  `np.random.rand`/`np.random.uniform` sites carry the underlying
  uniform-[0,1) sample; `np.random.choice` sites carry the chosen index;
  `np.random.poisson` carries its (arbitrary natural) output;
  `np.random.randint(lo, hi, n)` carries raw naturals mapped into `[lo, hi)`
  and, exactly like numpy, fails (returns `none`) when `lo >= hi`.
  `Entropy.Admissible` states the ranges every real numpy stream satisfies.
* Dates are day offsets from the epoch 2023-01-01 (day granularity, year
  2023 is not a leap year); `monthOfDay` recovers `datetime.month` for day
  offsets below 365.
* A pandas `DataFrame` is a record of named column lists (`Table`,
  `MonthlyTable`, `TopTable`); `df.sort_values` is modelled by sorting with
  the corresponding total order (ties carry no observable content here).
-/

/-- Python `int(x)` on a real value: truncation toward zero. -/
def pyInt (x : ℚ) : ℤ :=
  if 0 ≤ x then ⌊x⌋ else ⌈x⌉

/-- Round-half-to-even to the nearest integer, the rounding used by Python's
builtin `round` and by numpy/pandas `.round`. -/
def roundHalfEven (q : ℚ) : ℤ :=
  if q - ⌊q⌋ < 1 / 2 then ⌊q⌋
  else if 1 / 2 < q - ⌊q⌋ then ⌊q⌋ + 1
  else if ⌊q⌋ % 2 = 0 then ⌊q⌋ else ⌊q⌋ + 1

/-- Python `round(x, 2)`: round half-to-even at two decimal places. -/
def round2 (x : ℚ) : ℚ :=
  (roundHalfEven (100 * x) : ℚ) / 100

/-- Python `round(x, 1)`: round half-to-even at one decimal place. -/
def round1 (x : ℚ) : ℚ :=
  (roundHalfEven (10 * x) : ℚ) / 10

/-- `np.random.uniform(low, high)` applied to an underlying uniform-[0,1)
sample `u`: numpy computes `low + u * (high - low)`. -/
def numpyUniform (low high u : ℚ) : ℚ :=
  low + u * (high - low)

/-- `np.random.randint(low, high, n)` over a stream `d` of raw draws: numpy
validates `low < high` (raising `ValueError: low >= high` otherwise, even for
`n = 0`) and then returns `n` values in `[low, high)`. -/
def numpyRandint (low high : ℕ) (d : ℕ → ℕ) (n : ℕ) : Option (List ℕ) :=
  if low < high then some ((List.range n).map fun i => low + d i % (high - low)) else none

/-- Zero-padding of a natural to width `w`, as in a Python format such as
`'%05d'` (numbers wider than `w` are kept whole). -/
def zpad (w k : ℕ) : String :=
  let s := Nat.repr k
  String.mk (List.replicate (w - s.length) '0') ++ s

/-- `datetime.month` of the date `2023-01-01 + d days`, valid for the day
offsets `0 ≤ d < 365` the generator produces (2023 is not a leap year).
Out-of-range offsets fall into the last branch. -/
def monthOfDay (d : ℕ) : ℕ :=
  if d < 31 then 1 else if d < 59 then 2 else if d < 90 then 3 else if d < 120 then 4
  else if d < 151 then 5 else if d < 181 then 6 else if d < 212 then 7 else if d < 243 then 8
  else if d < 273 then 9 else if d < 304 then 10 else if d < 334 then 11 else 12

/-- The random draws consumed by one call of `generate_demo_data`, one stream
per call site, indexed by row. -/
structure Entropy where
  rand : ℕ → ℚ
  prodIdx : ℕ → ℕ
  regionIdx : ℕ → ℕ
  channelIdx : ℕ → ℕ
  segmentIdx : ℕ → ℕ
  priceU : ℕ → ℚ
  pois : ℕ → ℕ
  costU : ℕ → ℚ
  custDraw : ℕ → ℕ
  repIdx : ℕ → ℕ

/-- The ranges every stream of draws actually produced by numpy satisfies:
uniform samples lie in `[0,1)` and categorical choices index their pools. -/
def Entropy.Admissible (e : Entropy) : Prop :=
  (∀ i, 0 ≤ e.rand i ∧ e.rand i < 1) ∧
  (∀ i, e.prodIdx i < 10) ∧
  (∀ i, e.regionIdx i < 5) ∧
  (∀ i, e.channelIdx i < 3) ∧
  (∀ i, e.segmentIdx i < 3) ∧
  (∀ i, 0 ≤ e.priceU i ∧ e.priceU i < 1) ∧
  (∀ i, 0 ≤ e.costU i ∧ e.costU i < 1) ∧
  (∀ i, e.repIdx i < 20)

/-- The random draws consumed by one call of `generate_monthly_demo_data`. -/
structure MonthlyEntropy where
  revU : ℕ → ℚ
  ordersD : ℕ → ℕ
  aovU : ℕ → ℚ
  custD : ℕ → ℕ
  newD : ℕ → ℕ

/-- The random draws consumed by one call of `generate_top_products_data`. -/
structure TopEntropy where
  unitsD : ℕ → ℕ
  revU : ℕ → ℚ
  ratingU : ℕ → ℚ
  returnU : ℕ → ℚ

/-- The 14-column detailed-sales table produced by `generate_demo_data`. -/
structure Table where
  order_id : List String
  date : List ℕ
  customer_id : List String
  product : List String
  category : List String
  quantity : List ℤ
  unit_price : List ℚ
  revenue : List ℚ
  cost : List ℚ
  profit : List ℚ
  region : List String
  channel : List String
  customer_segment : List String
  sales_rep : List String

/-- Product pool of `generate_demo_data` (demo_data.py lines 30-31). -/
def products : List String :=
  ["Laptop", "Phone", "Tablet", "Headphones", "Mouse", "Keyboard",
   "Monitor", "Webcam", "Speaker", "Charger"]

/-- The `category_map` dict (demo_data.py lines 35-46). -/
def category_map : List (String × String) :=
  [("Laptop", "Computers"), ("Phone", "Mobile"), ("Tablet", "Mobile"),
   ("Headphones", "Accessories"), ("Mouse", "Accessories"), ("Keyboard", "Accessories"),
   ("Monitor", "Computers"), ("Webcam", "Accessories"), ("Speaker", "Accessories"),
   ("Charger", "Accessories")]

/-- `category_map[p]`; the default is unreachable because products are always
drawn from the ten keys. -/
def categoryOf (p : String) : String :=
  (category_map.lookup p).getD ""

/-- Region pool (demo_data.py line 50). -/
def regions : List String :=
  ["North", "South", "East", "West", "Central"]

/-- Sales-channel pool (demo_data.py line 54). -/
def channels : List String :=
  ["Online", "Retail", "Partner"]

/-- Customer-segment pool (demo_data.py line 58). -/
def segments : List String :=
  ["Enterprise", "SMB", "Consumer"]

/-- The `base_prices` dict (demo_data.py lines 62-66). -/
def base_prices : List (String × ℚ) :=
  [("Laptop", 1200), ("Phone", 800), ("Tablet", 500), ("Headphones", 150),
   ("Mouse", 50), ("Keyboard", 80), ("Monitor", 350), ("Webcam", 100),
   ("Speaker", 120), ("Charger", 30)]

/-- `base_prices[p]`; the default is unreachable for drawn products. -/
def basePriceOf (p : String) : ℚ :=
  (base_prices.lookup p).getD 0

/-- The `month_multipliers` dict (demo_data.py lines 72-73). -/
def month_multipliers : List (ℕ × ℚ) :=
  [(1, 0.8), (2, 0.85), (3, 0.9), (4, 1.0), (5, 1.0), (6, 1.1),
   (7, 1.15), (8, 1.1), (9, 1.0), (10, 1.05), (11, 1.3), (12, 1.4)]

/-- `month_multipliers[m]`; the default is unreachable since months are 1..12. -/
def multOf (m : ℕ) : ℚ :=
  (month_multipliers.lookup m).getD 1

/-- The twenty sales-rep labels `Rep_01` .. `Rep_20` (demo_data.py line 97). -/
def reps : List String :=
  (List.range 20).map fun i => "Rep_" ++ zpad 2 (i + 1)

/-- Dates stage (demo_data.py line 27): draw `n` uniforms, scale by 365, sort
ascending, truncate each to whole days past the 2023-01-01 epoch. -/
def datesList (n : ℕ) (e : Entropy) : List ℕ :=
  (List.insertionSort (· ≤ ·) ((List.range n).map fun i => e.rand i * 365)).map
    fun x => (pyInt x).toNat

/-- Product stage (demo_data.py line 32). -/
def productList (n : ℕ) (e : Entropy) : List String :=
  (List.range n).map fun i => products.getD (e.prodIdx i) "Laptop"

/-- Region stage (demo_data.py line 51). -/
def regionList (n : ℕ) (e : Entropy) : List String :=
  (List.range n).map fun i => regions.getD (e.regionIdx i) ""

/-- Channel stage (demo_data.py line 55). -/
def channelList (n : ℕ) (e : Entropy) : List String :=
  (List.range n).map fun i => channels.getD (e.channelIdx i) ""

/-- Segment stage (demo_data.py line 59). -/
def segmentList (n : ℕ) (e : Entropy) : List String :=
  (List.range n).map fun i => segments.getD (e.segmentIdx i) ""

/-- Price stage (demo_data.py line 69): base price of the row's product times
`uniform(0.8, 1.2)` jitter. -/
def pricesList (n : ℕ) (e : Entropy) : List ℚ :=
  (List.range n).map fun i =>
    basePriceOf ((productList n e).getD i "") * numpyUniform 0.8 1.2 (e.priceU i)

/-- Quantity stage (demo_data.py lines 74-78): `int((poisson(2)+1) * seasonal)`
with the seasonal multiplier of the row's (sorted) date. -/
def quantitiesList (n : ℕ) (e : Entropy) : List ℤ :=
  (List.range n).map fun i =>
    pyInt ((e.pois i + 1 : ℚ) * multOf (monthOfDay ((datesList n e).getD i 0)))

/-- Revenue stage (demo_data.py line 81): unrounded `price * quantity`. -/
def revenueList (n : ℕ) (e : Entropy) : List ℚ :=
  (List.range n).map fun i =>
    (pricesList n e).getD i 0 * (((quantitiesList n e).getD i 0 : ℤ) : ℚ)

/-- Cost stage (demo_data.py line 84): `price * uniform(0.70, 0.85) * quantity`. -/
def costsList (n : ℕ) (e : Entropy) : List ℚ :=
  (List.range n).map fun i =>
    (pricesList n e).getD i 0 * numpyUniform 0.70 0.85 (e.costU i) *
      (((quantitiesList n e).getD i 0 : ℤ) : ℚ)

/-- Profit stage (demo_data.py line 87): `revenue - cost`, unrounded. -/
def profitList (n : ℕ) (e : Entropy) : List ℚ :=
  (List.range n).map fun i => (revenueList n e).getD i 0 - (costsList n e).getD i 0

/-- Order-id stage (demo_data.py line 94): sequential, zero-padded to width 6. -/
def orderIds (n : ℕ) : List String :=
  (List.range n).map fun i => "ORD" ++ zpad 6 (i + 1)

/-- Sales-rep stage (demo_data.py line 98). -/
def repList (n : ℕ) (e : Entropy) : List String :=
  (List.range n).map fun i => reps.getD (e.repIdx i) ""

/-- The DataFrame assembled at demo_data.py lines 101-116, given the customer
numbers drawn by the `randint` call; money columns rounded to 2 decimals. -/
def mkTable (n : ℕ) (e : Entropy) (custNums : List ℕ) : Table where
  order_id := orderIds n
  date := datesList n e
  customer_id := custNums.map fun c => "CUST" ++ zpad 5 c
  product := productList n e
  category := (productList n e).map categoryOf
  quantity := quantitiesList n e
  unit_price := (pricesList n e).map round2
  revenue := (revenueList n e).map round2
  cost := (costsList n e).map round2
  profit := (profitList n e).map round2
  region := regionList n e
  channel := channelList n e
  customer_segment := segmentList n e
  sales_rep := repList n e

/-- `generate_demo_data(n_records, seed)` after the reseed, as a function of
the reseeded stream.  The customer-id pool size is `n_records // 3` with no
floor (demo_data.py line 90), so the `randint(1, n_customers + 1, n_records)`
call at line 91 fails (numpy raises `ValueError`) whenever `n_records < 3`;
the failure is modelled by `none`. -/
def generate_demo_data (n_records : ℕ) (e : Entropy) : Option Table :=
  (numpyRandint 1 (n_records / 3 + 1) e.custDraw n_records).map (mkTable n_records e)

/-- The full call `generate_demo_data(n_records, seed)` (demo_data.py lines
12-118) with the ambient global numpy state `g` made explicit: the first
statement `np.random.seed(seed)` replaces `g` by the stream determined by the
seed (`seedFn seed`), so `g` is discarded. -/
def generate_demo_data_seeded (seedFn : ℤ → Entropy) (n_records : ℕ) (seed : ℤ)
    (g : Entropy) : Option Table :=
  generate_demo_data n_records (seedFn seed)

/-- The monthly-rollup table of `generate_monthly_demo_data`. -/
structure MonthlyTable where
  month : List ℕ
  total_revenue : List ℚ
  total_orders : List ℕ
  avg_order_value : List ℚ
  customer_count : List ℕ
  new_customers : List ℕ

/-- `pd.date_range('2023-01', '2023-12', freq='MS')` (demo_data.py line 125):
the twelve first-of-month dates of 2023, as day offsets from 2023-01-01. -/
def month_starts : List ℕ :=
  [0, 31, 59, 90, 120, 151, 181, 212, 243, 273, 304, 334]

/-- `generate_monthly_demo_data(seed)` (demo_data.py lines 121-140) as a
function of the reseeded stream: twelve independently sampled rows, with the
two money columns rounded to 2 decimals after construction. -/
def generate_monthly_demo_data (e : MonthlyEntropy) : MonthlyTable where
  month := month_starts
  total_revenue := ((List.range 12).map fun i => numpyUniform 150000 250000 (e.revU i)).map round2
  total_orders := (List.range 12).map fun i => 400 + e.ordersD i % 300
  avg_order_value := ((List.range 12).map fun i => numpyUniform 300 500 (e.aovU i)).map round2
  customer_count := (List.range 12).map fun i => 300 + e.custD i % 200
  new_customers := (List.range 12).map fun i => 50 + e.newD i % 70

/-- One pre-sort row of the top-products table. -/
structure TopRow where
  product : String
  units : ℕ
  revenue : ℚ
  rating : ℚ
  retRate : ℚ

/-- The ordering used by `df.sort_values('Revenue', ascending=False)`
(demo_data.py line 160): descending by the unrounded revenue. -/
def revDesc (a b : TopRow) : Prop :=
  b.revenue ≤ a.revenue

instance : DecidableRel revDesc :=
  fun a b => inferInstanceAs (Decidable (b.revenue ≤ a.revenue))

instance : IsTotal TopRow revDesc :=
  ⟨fun a b => le_total b.revenue a.revenue⟩

instance : IsTrans TopRow revDesc :=
  ⟨fun _ _ _ h1 h2 => le_trans h2 h1⟩

/-- The top-products table of `generate_top_products_data`. -/
structure TopTable where
  product : List String
  units_sold : List ℕ
  revenue : List ℚ
  avg_rating : List ℚ
  return_rate : List ℚ

/-- The fixed top-products marketing names (demo_data.py lines 147-149). -/
def top_products : List String :=
  ["Laptop Pro", "Smartphone X", "Tablet Mini", "Wireless Headphones",
   "Gaming Mouse", "Mechanical Keyboard", "4K Monitor", "HD Webcam",
   "Bluetooth Speaker", "Fast Charger"]

/-- The ten pre-sort rows of `generate_top_products_data` (demo_data.py lines
151-157): fixed names zipped with the four independent draws per row. -/
def topRows (e : TopEntropy) : List TopRow :=
  (List.range 10).map fun i =>
    TopRow.mk (top_products.getD i "") (500 + e.unitsD i % 1500)
      (numpyUniform 50000 200000 (e.revU i)) (numpyUniform 3.5 5.0 (e.ratingU i))
      (numpyUniform 1 8 (e.returnU i))

/-- `generate_top_products_data(seed)` (demo_data.py lines 143-165) as a
function of the reseeded stream: ten rows, sorted descending by (unrounded)
revenue, then rounded (`Revenue`/`Return_Rate` to 2 decimals, `Avg_Rating` to
1 decimal). -/
def generate_top_products_data (e : TopEntropy) : TopTable where
  product := (List.insertionSort revDesc (topRows e)).map TopRow.product
  units_sold := (List.insertionSort revDesc (topRows e)).map TopRow.units
  revenue := ((List.insertionSort revDesc (topRows e)).map TopRow.revenue).map round2
  avg_rating := ((List.insertionSort revDesc (topRows e)).map TopRow.rating).map round1
  return_rate := ((List.insertionSort revDesc (topRows e)).map TopRow.retRate).map round2

namespace App

/-!
Independent translation of the generator copies inlined in `app.py`
(lines 42-118, 120-138, 141-161).  The bodies repeat the tables and stages of
the `demo_data.py` translation above because the Python source is duplicated
verbatim; modelling primitives (`pyInt`, `round2`, `numpyUniform`,
`numpyRandint`, `zpad`, `monthOfDay`, sorting) model Python/numpy/pandas
builtins and are shared.
-/

/-- Product pool (app.py lines 49-50). -/
def products : List String :=
  ["Laptop", "Phone", "Tablet", "Headphones", "Mouse", "Keyboard",
   "Monitor", "Webcam", "Speaker", "Charger"]

/-- The `category_map` dict (app.py lines 53-57). -/
def category_map : List (String × String) :=
  [("Laptop", "Computers"), ("Phone", "Mobile"), ("Tablet", "Mobile"),
   ("Headphones", "Accessories"), ("Mouse", "Accessories"), ("Keyboard", "Accessories"),
   ("Monitor", "Computers"), ("Webcam", "Accessories"), ("Speaker", "Accessories"),
   ("Charger", "Accessories")]

/-- `category_map[p]` (app.py line 58). -/
def categoryOf (p : String) : String :=
  (App.category_map.lookup p).getD ""

/-- Region pool (app.py line 60). -/
def regions : List String :=
  ["North", "South", "East", "West", "Central"]

/-- Channel pool (app.py line 63). -/
def channels : List String :=
  ["Online", "Retail", "Partner"]

/-- Segment pool (app.py line 66). -/
def segments : List String :=
  ["Enterprise", "SMB", "Consumer"]

/-- The `base_prices` dict (app.py lines 69-73). -/
def base_prices : List (String × ℚ) :=
  [("Laptop", 1200), ("Phone", 800), ("Tablet", 500), ("Headphones", 150),
   ("Mouse", 50), ("Keyboard", 80), ("Monitor", 350), ("Webcam", 100),
   ("Speaker", 120), ("Charger", 30)]

/-- `base_prices[p]` (app.py line 75). -/
def basePriceOf (p : String) : ℚ :=
  (App.base_prices.lookup p).getD 0

/-- The `month_multipliers` dict (app.py lines 77-78). -/
def month_multipliers : List (ℕ × ℚ) :=
  [(1, 0.8), (2, 0.85), (3, 0.9), (4, 1.0), (5, 1.0), (6, 1.1),
   (7, 1.15), (8, 1.1), (9, 1.0), (10, 1.05), (11, 1.3), (12, 1.4)]

/-- `month_multipliers[m]` (app.py line 82). -/
def multOf (m : ℕ) : ℚ :=
  (App.month_multipliers.lookup m).getD 1

/-- Sales-rep labels (app.py line 93). -/
def reps : List String :=
  (List.range 20).map fun i => "Rep_" ++ zpad 2 (i + 1)

/-- Dates stage (app.py line 46). -/
def datesList (n : ℕ) (e : Entropy) : List ℕ :=
  (List.insertionSort (· ≤ ·) ((List.range n).map fun i => e.rand i * 365)).map
    fun x => (pyInt x).toNat

/-- Product stage (app.py line 51). -/
def productList (n : ℕ) (e : Entropy) : List String :=
  (List.range n).map fun i => App.products.getD (e.prodIdx i) "Laptop"

/-- Region stage (app.py line 61). -/
def regionList (n : ℕ) (e : Entropy) : List String :=
  (List.range n).map fun i => App.regions.getD (e.regionIdx i) ""

/-- Channel stage (app.py line 64). -/
def channelList (n : ℕ) (e : Entropy) : List String :=
  (List.range n).map fun i => App.channels.getD (e.channelIdx i) ""

/-- Segment stage (app.py line 67). -/
def segmentList (n : ℕ) (e : Entropy) : List String :=
  (List.range n).map fun i => App.segments.getD (e.segmentIdx i) ""

/-- Price stage (app.py line 75). -/
def pricesList (n : ℕ) (e : Entropy) : List ℚ :=
  (List.range n).map fun i =>
    App.basePriceOf ((App.productList n e).getD i "") * numpyUniform 0.8 1.2 (e.priceU i)

/-- Quantity stage (app.py lines 79-84). -/
def quantitiesList (n : ℕ) (e : Entropy) : List ℤ :=
  (List.range n).map fun i =>
    pyInt ((e.pois i + 1 : ℚ) * App.multOf (monthOfDay ((App.datesList n e).getD i 0)))

/-- Revenue stage (app.py line 86). -/
def revenueList (n : ℕ) (e : Entropy) : List ℚ :=
  (List.range n).map fun i =>
    (App.pricesList n e).getD i 0 * (((App.quantitiesList n e).getD i 0 : ℤ) : ℚ)

/-- Cost stage (app.py line 87). -/
def costsList (n : ℕ) (e : Entropy) : List ℚ :=
  (List.range n).map fun i =>
    (App.pricesList n e).getD i 0 * numpyUniform 0.70 0.85 (e.costU i) *
      (((App.quantitiesList n e).getD i 0 : ℤ) : ℚ)

/-- Profit stage (app.py line 88). -/
def profitList (n : ℕ) (e : Entropy) : List ℚ :=
  (List.range n).map fun i => (App.revenueList n e).getD i 0 - (App.costsList n e).getD i 0

/-- Order-id stage (app.py line 92). -/
def orderIds (n : ℕ) : List String :=
  (List.range n).map fun i => "ORD" ++ zpad 6 (i + 1)

/-- Sales-rep stage (app.py line 94). -/
def repList (n : ℕ) (e : Entropy) : List String :=
  (List.range n).map fun i => App.reps.getD (e.repIdx i) ""

/-- The DataFrame assembled at app.py lines 96-111. -/
def mkTable (n : ℕ) (e : Entropy) (custNums : List ℕ) : Table where
  order_id := App.orderIds n
  date := App.datesList n e
  customer_id := custNums.map fun c => "CUST" ++ zpad 5 c
  product := App.productList n e
  category := (App.productList n e).map App.categoryOf
  quantity := App.quantitiesList n e
  unit_price := (App.pricesList n e).map round2
  revenue := (App.revenueList n e).map round2
  cost := (App.costsList n e).map round2
  profit := (App.profitList n e).map round2
  region := App.regionList n e
  channel := App.channelList n e
  customer_segment := App.segmentList n e
  sales_rep := App.repList n e

/-- The `generate_demo_data` copy of app.py lines 42-114; the customer pool
size is again `n_records // 3` with no floor (app.py lines 90-91). -/
def generate_demo_data (n_records : ℕ) (e : Entropy) : Option Table :=
  (numpyRandint 1 (n_records / 3 + 1) e.custDraw n_records).map (App.mkTable n_records e)

/-- `pd.date_range` of the app.py monthly copy (app.py line 120). -/
def month_starts : List ℕ :=
  [0, 31, 59, 90, 120, 151, 181, 212, 243, 273, 304, 334]

/-- The `generate_monthly_demo_data` copy of app.py lines 117-135. -/
def generate_monthly_demo_data (e : MonthlyEntropy) : MonthlyTable where
  month := App.month_starts
  total_revenue := ((List.range 12).map fun i => numpyUniform 150000 250000 (e.revU i)).map round2
  total_orders := (List.range 12).map fun i => 400 + e.ordersD i % 300
  avg_order_value := ((List.range 12).map fun i => numpyUniform 300 500 (e.aovU i)).map round2
  customer_count := (List.range 12).map fun i => 300 + e.custD i % 200
  new_customers := (List.range 12).map fun i => 50 + e.newD i % 70

/-- Top-product names of the app.py copy (app.py lines 141-143). -/
def top_products : List String :=
  ["Laptop Pro", "Smartphone X", "Tablet Mini", "Wireless Headphones",
   "Gaming Mouse", "Mechanical Keyboard", "4K Monitor", "HD Webcam",
   "Bluetooth Speaker", "Fast Charger"]

/-- The pre-sort rows of the app.py copy (app.py lines 145-151). -/
def topRows (e : TopEntropy) : List TopRow :=
  (List.range 10).map fun i =>
    TopRow.mk (App.top_products.getD i "") (500 + e.unitsD i % 1500)
      (numpyUniform 50000 200000 (e.revU i)) (numpyUniform 3.5 5.0 (e.ratingU i))
      (numpyUniform 1 8 (e.returnU i))

/-- The `generate_top_products_data` copy of app.py lines 138-158. -/
def generate_top_products_data (e : TopEntropy) : TopTable where
  product := (List.insertionSort revDesc (App.topRows e)).map TopRow.product
  units_sold := (List.insertionSort revDesc (App.topRows e)).map TopRow.units
  revenue := ((List.insertionSort revDesc (App.topRows e)).map TopRow.revenue).map round2
  avg_rating := ((List.insertionSort revDesc (App.topRows e)).map TopRow.rating).map round1
  return_rate := ((List.insertionSort revDesc (App.topRows e)).map TopRow.retRate).map round2

end App

/-! ### Library lemmas about the modelling primitives -/

theorem getD_range_map {α : Type} (f : ℕ → α) (n i : ℕ) (d : α) :
    ((List.range n).map f).getD i d = if i < n then f i else d := by
  rw [List.getD_eq_getElem?_getD, List.getElem?_map]
  by_cases h : i < n
  · rw [List.getElem?_range h, if_pos h]
    rfl
  · rw [List.getElem?_eq_none (by simpa [List.length_range] using not_lt.mp h), if_neg h]
    rfl

theorem roundHalfEven_ge_floor (q : ℚ) : ⌊q⌋ ≤ roundHalfEven q := by
  unfold roundHalfEven
  split_ifs <;> omega

theorem roundHalfEven_le_floor_add_one (q : ℚ) : roundHalfEven q ≤ ⌊q⌋ + 1 := by
  unfold roundHalfEven
  split_ifs <;> omega

theorem abs_roundHalfEven_sub (q : ℚ) : |(roundHalfEven q : ℚ) - q| ≤ 1 / 2 := by
  have h1 : (⌊q⌋ : ℚ) ≤ q := Int.floor_le q
  have h2 : q < ⌊q⌋ + 1 := Int.lt_floor_add_one q
  unfold roundHalfEven
  split_ifs with ha hb hc <;> rw [abs_le] <;> constructor <;> push_cast <;> linarith

theorem roundHalfEven_mono {q r : ℚ} (h : q ≤ r) : roundHalfEven q ≤ roundHalfEven r := by
  rcases lt_or_eq_of_le (Int.floor_le_floor h) with hf | hf
  · calc roundHalfEven q ≤ ⌊q⌋ + 1 := roundHalfEven_le_floor_add_one q
      _ ≤ ⌊r⌋ := by omega
      _ ≤ roundHalfEven r := roundHalfEven_ge_floor r
  · unfold roundHalfEven
    rw [← hf]
    have hc : ((⌊q⌋ : ℤ) : ℚ) = ((⌊q⌋ : ℤ) : ℚ) := rfl
    split_ifs <;> first | omega | linarith

theorem abs_round2_sub (x : ℚ) : |round2 x - x| ≤ 1 / 200 := by
  have h := abs_roundHalfEven_sub (100 * x)
  rw [abs_le] at h
  unfold round2
  rw [abs_le]
  constructor <;> linarith [h.1, h.2]

theorem round2_mono {x y : ℚ} (h : x ≤ y) : round2 x ≤ round2 y := by
  have h1 := roundHalfEven_mono (show 100 * x ≤ 100 * y by linarith)
  have h2 : ((roundHalfEven (100 * x) : ℤ) : ℚ) ≤ ((roundHalfEven (100 * y) : ℤ) : ℚ) := by
    exact_mod_cast h1
  unfold round2
  linarith

theorem round2_cent (x : ℚ) : ∃ k : ℤ, round2 x = (k : ℚ) / 100 :=
  ⟨roundHalfEven (100 * x), rfl⟩

theorem round2_zero : round2 0 = 0 := by
  have : roundHalfEven 0 = 0 := by
    unfold roundHalfEven
    norm_num
  unfold round2
  rw [show (100 : ℚ) * 0 = 0 by norm_num, this]
  norm_num

theorem pyInt_nonneg {x : ℚ} (h : 0 ≤ x) : 0 ≤ pyInt x := by
  unfold pyInt
  rw [if_pos h]
  exact Int.floor_nonneg.mpr h

theorem one_le_pyInt {x : ℚ} (h : 1 ≤ x) : 1 ≤ pyInt x := by
  unfold pyInt
  rw [if_pos (by linarith)]
  exact Int.le_floor.mpr (by exact_mod_cast h)

theorem pyInt_toNat_mono {x y : ℚ} (h : x ≤ y) : (pyInt x).toNat ≤ (pyInt y).toNat := by
  unfold pyInt
  by_cases hx : 0 ≤ x
  · rw [if_pos hx, if_pos (le_trans hx h)]
    exact Int.toNat_le_toNat (Int.floor_le_floor h)
  · rw [if_neg hx]
    have hceil : ⌈x⌉ ≤ 0 := Int.ceil_le.mpr (by push_cast; linarith [not_le.mp hx])
    rw [Int.toNat_of_nonpos hceil]
    exact Nat.zero_le _

/-! ### Structural lemmas about `generate_demo_data` -/

theorem generate_demo_data_eq_some (n : ℕ) (e : Entropy) (h : 3 ≤ n) :
    generate_demo_data n e =
      some (mkTable n e ((List.range n).map fun i => 1 + e.custDraw i % (n / 3))) := by
  unfold generate_demo_data numpyRandint
  rw [if_pos (by omega : 1 < n / 3 + 1)]
  rw [show n / 3 + 1 - 1 = n / 3 from rfl]
  rfl

theorem generate_demo_data_eq_none (n : ℕ) (e : Entropy) (h : n < 3) :
    generate_demo_data n e = none := by
  unfold generate_demo_data numpyRandint
  rw [if_neg (by omega : ¬ 1 < n / 3 + 1)]
  rfl

theorem eq_mkTable_of_mem {n : ℕ} {e : Entropy} {t : Table}
    (ht : t ∈ generate_demo_data n e) :
    t = mkTable n e ((List.range n).map fun i => 1 + e.custDraw i % (n / 3)) := by
  rw [Option.mem_def] at ht
  by_cases h : 3 ≤ n
  · rw [generate_demo_data_eq_some n e h] at ht
    exact (Option.some_inj.mp ht).symm
  · rw [generate_demo_data_eq_none n e (by omega)] at ht
    exact absurd ht (by simp)

theorem datesList_length (n : ℕ) (e : Entropy) : (datesList n e).length = n := by
  unfold datesList
  rw [List.length_map, List.length_insertionSort, List.length_map, List.length_range]

theorem datesList_sorted (n : ℕ) (e : Entropy) : List.Sorted (· ≤ ·) (datesList n e) := by
  unfold datesList
  exact List.Pairwise.map _ (fun a b hab => pyInt_toNat_mono hab)
    (List.sorted_insertionSort (· ≤ ·) _)

theorem datesList_lt_365 {n : ℕ} {e : Entropy} (he : e.Admissible) :
    ∀ d ∈ datesList n e, d < 365 := by
  intro d hd
  unfold datesList at hd
  rw [List.mem_map] at hd
  obtain ⟨x, hx, rfl⟩ := hd
  rw [List.mem_insertionSort, List.mem_map] at hx
  obtain ⟨i, _, rfl⟩ := hx
  obtain ⟨h0, h1⟩ := he.1 i
  have hx0 : 0 ≤ e.rand i * 365 := mul_nonneg h0 (by norm_num)
  have hx1 : e.rand i * 365 < 365 := by nlinarith
  unfold pyInt
  rw [if_pos hx0]
  have hfl : ⌊e.rand i * 365⌋ ≤ 364 := by
    have := Int.floor_lt.mpr (show e.rand i * 365 < ((365 : ℤ) : ℚ) by exact_mod_cast hx1)
    omega
  have := Int.toNat_le_toNat hfl
  simp only [show ((364 : ℤ)).toNat = 364 from rfl] at this
  omega

/-! ### The seasonal multiplier table, month by month -/

theorem multOf_one : multOf 1 = 0.8 := rfl

theorem multOf_two : multOf 2 = 0.85 := rfl

theorem multOf_three : multOf 3 = 0.9 := rfl

theorem multOf_four : multOf 4 = 1.0 := rfl

theorem multOf_five : multOf 5 = 1.0 := rfl

theorem multOf_six : multOf 6 = 1.1 := rfl

theorem multOf_seven : multOf 7 = 1.15 := rfl

theorem multOf_eight : multOf 8 = 1.1 := rfl

theorem multOf_nine : multOf 9 = 1.0 := rfl

theorem multOf_ten : multOf 10 = 1.05 := rfl

theorem multOf_eleven : multOf 11 = 1.3 := rfl

theorem multOf_twelve : multOf 12 = 1.4 := rfl

theorem multOf_monthOfDay_ge (d : ℕ) : (4 : ℚ) / 5 ≤ multOf (monthOfDay d) := by
  unfold monthOfDay
  split_ifs <;>
    norm_num [multOf_one, multOf_two, multOf_three, multOf_four, multOf_five, multOf_six,
      multOf_seven, multOf_eight, multOf_nine, multOf_ten, multOf_eleven, multOf_twelve]

theorem one_le_multOf_of_month_ge {d : ℕ} (h : 4 ≤ monthOfDay d) :
    1 ≤ multOf (monthOfDay d) := by
  revert h
  unfold monthOfDay
  split_ifs <;> intro h <;>
    first
      | omega
      | norm_num [multOf_four, multOf_five, multOf_six, multOf_seven, multOf_eight,
          multOf_nine, multOf_ten, multOf_eleven, multOf_twelve]

theorem getD_map_of_lt {α β : Type} (f : α → β) (l : List α) {i : ℕ}
    (hi : i < l.length) (d : β) (d' : α) :
    (l.map f).getD i d = f (l.getD i d') := by
  rw [List.getD_eq_getElem?_getD, List.getD_eq_getElem?_getD, List.getElem?_map,
    List.getElem?_eq_getElem hi]
  rfl

/-! ### Claim predicates -/

/-- Every one of the 14 columns of any produced table has exactly `n` rows. -/
def RowCount (n : ℕ) (o : Option Table) : Prop :=
  ∀ t ∈ o,
    t.order_id.length = n ∧ t.date.length = n ∧ t.customer_id.length = n ∧
    t.product.length = n ∧ t.category.length = n ∧ t.quantity.length = n ∧
    t.unit_price.length = n ∧ t.revenue.length = n ∧ t.cost.length = n ∧
    t.profit.length = n ∧ t.region.length = n ∧ t.channel.length = n ∧
    t.customer_segment.length = n ∧ t.sales_rep.length = n

/-- The category column is exactly the fixed product-to-category map applied to
the product column. -/
def CategoryLawful (o : Option Table) : Prop :=
  ∀ t ∈ o, t.category = t.product.map categoryOf

/-! ### C1: determinism of `generate_demo_data` in `(n, seed)` -/

/-- C1: for every record count and seed, two invocations of
`generate_demo_data` — i.e. runs from two arbitrary ambient global random
states `g₁, g₂` — return identical tables, because the call starts with
`np.random.seed(seed)`; moreover every one of the 14 columns of a produced
table has exactly `n` rows. -/
theorem generate_demo_data_deterministic :
    ∀ (seedFn : ℤ → Entropy) (n : ℕ) (seed : ℤ) (g₁ g₂ : Entropy),
      generate_demo_data_seeded seedFn n seed g₁ = generate_demo_data_seeded seedFn n seed g₂ ∧
      RowCount n (generate_demo_data_seeded seedFn n seed g₁) := by
  intro seedFn n seed g₁ g₂
  refine ⟨rfl, ?_⟩
  intro t ht
  have h := eq_mkTable_of_mem (show t ∈ generate_demo_data n (seedFn seed) from ht)
  subst h
  refine ⟨?_, ?_, ?_, ?_, ?_, ?_, ?_, ?_, ?_, ?_, ?_, ?_, ?_, ?_⟩ <;>
    simp [mkTable, orderIds, datesList_length, productList, regionList, channelList,
      segmentList, pricesList, quantitiesList, revenueList, costsList, profitList, repList]

/-! ### C2: the `n_records = 0` edge case -/

/-- C2 (code bug): with `n_records = 0` the generator does not return an empty
14-column table; the customer-id pool size is `0 // 3 = 0` and numpy's
`randint(1, 1, 0)` validates `low < high` before looking at the size, so the
call raises `ValueError` — modelled as `none` — for every random stream. -/
theorem generate_demo_data_zero_raises :
    ∀ e : Entropy, generate_demo_data 0 e = none :=
  fun _ => rfl

/-! ### C3: the customer-id pool size for small `n` -/

/-- C3 (code bug): the customer pool size is `n_records // 3` with no floor of
one, so for `n_records = 1` and `2` the `randint(1, 1, n)` call raises
(`none` for every stream), while every count of the form `n + 3 ≥ 3` yields a
table. -/
theorem generate_demo_data_small_n_raises :
    (∀ e : Entropy, generate_demo_data 1 e = none ∧ generate_demo_data 2 e = none) ∧
    (∀ (n : ℕ) (e : Entropy), (generate_demo_data (n + 3) e).isSome = true) := by
  refine ⟨fun _ => ⟨rfl, rfl⟩, fun n e => ?_⟩
  rw [generate_demo_data_eq_some (n + 3) e (by omega)]
  rfl

/-! ### C8: the product-to-category mapping -/

/-- C8: in every produced table the category column is the fixed mapping
applied row-wise to the product column, and the mapping sends Laptop and
Monitor to Computers, Phone and Tablet to Mobile, and the six remaining
products to Accessories. -/
theorem category_matches_product_map :
    (∀ (n : ℕ) (e : Entropy), CategoryLawful (generate_demo_data n e)) ∧
    categoryOf "Laptop" = "Computers" ∧ categoryOf "Monitor" = "Computers" ∧
    categoryOf "Phone" = "Mobile" ∧ categoryOf "Tablet" = "Mobile" ∧
    categoryOf "Headphones" = "Accessories" ∧ categoryOf "Mouse" = "Accessories" ∧
    categoryOf "Keyboard" = "Accessories" ∧ categoryOf "Webcam" = "Accessories" ∧
    categoryOf "Speaker" = "Accessories" ∧ categoryOf "Charger" = "Accessories" := by
  refine ⟨?_, rfl, rfl, rfl, rfl, rfl, rfl, rfl, rfl, rfl, rfl⟩
  intro n e t ht
  rw [eq_mkTable_of_mem ht]
  rfl

/-! ### C7: dates are sorted and stay inside the 365-day window -/

/-- The date column is non-decreasing and every entry is one of the 365 day
offsets of the 2023 window. -/
def DatesLawful (o : Option Table) : Prop :=
  ∀ t ∈ o, List.Sorted (· ≤ ·) t.date ∧ ∀ d ∈ t.date, d < 365

/-- C7: for every record count and admissible random stream, the date column
of any produced table is non-decreasing by row index and lies within the fixed
365-day window starting at the 2023-01-01 epoch. -/
theorem dates_sorted_within_window (n : ℕ) (e : Entropy) (he : e.Admissible) :
    DatesLawful (generate_demo_data n e) := by
  intro t ht
  rw [eq_mkTable_of_mem ht]
  exact ⟨datesList_sorted n e, datesList_lt_365 he⟩

/-- A concrete all-zero admissible stream used to instantiate `C7`. -/
def wEntropy : Entropy where
  rand := fun _ => 0
  prodIdx := fun _ => 0
  regionIdx := fun _ => 0
  channelIdx := fun _ => 0
  segmentIdx := fun _ => 0
  priceU := fun _ => 0
  pois := fun _ => 0
  costU := fun _ => 0
  custDraw := fun _ => 0
  repIdx := fun _ => 0

theorem dates_sorted_within_window_witness :
    DatesLawful (generate_demo_data 3 wEntropy) :=
  dates_sorted_within_window 3 wEntropy
    (by
      refine ⟨fun i => ⟨?_, ?_⟩, fun i => ?_, fun i => ?_, fun i => ?_, fun i => ?_,
        fun i => ⟨?_, ?_⟩, fun i => ⟨?_, ?_⟩, fun i => ?_⟩ <;> norm_num [wEntropy])

/-! ### C6: the top-products leaderboard -/

/-- Ten rows over a permutation of the fixed name list, with the revenue
column non-increasing from the first row to the last. -/
def TopLawful (t : TopTable) : Prop :=
  t.product.length = 10 ∧ t.units_sold.length = 10 ∧ t.revenue.length = 10 ∧
  t.avg_rating.length = 10 ∧ t.return_rate.length = 10 ∧
  t.product.Perm top_products ∧
  List.Pairwise (fun a b : ℚ => b ≤ a) t.revenue

/-- C6: for every random stream, `generate_top_products_data` returns exactly
ten rows whose product names are the fixed marketing names, and its (rounded)
revenue column is sorted descending. -/
theorem top_products_sorted_desc :
    ∀ e : TopEntropy, TopLawful (generate_top_products_data e) := by
  intro e
  have hp := (List.perm_insertionSort revDesc (topRows e)).map TopRow.product
  have hfix : (topRows e).map TopRow.product = top_products := by
    simp [topRows, top_products, List.range_succ]
  rw [hfix] at hp
  have hs : List.Pairwise revDesc (List.insertionSort revDesc (topRows e)) :=
    List.sorted_insertionSort revDesc (topRows e)
  have h1 : List.Pairwise (fun a b : ℚ => b ≤ a)
      ((List.insertionSort revDesc (topRows e)).map TopRow.revenue) :=
    List.Pairwise.map _ (fun _ _ hab => hab) hs
  have h2 : List.Pairwise (fun a b : ℚ => b ≤ a)
      (((List.insertionSort revDesc (topRows e)).map TopRow.revenue).map round2) :=
    List.Pairwise.map _ (fun _ _ hab => round2_mono hab) h1
  have hlen : (topRows e).length = 10 := by
    simp only [topRows]
    rw [List.length_map, List.length_range]
  refine ⟨?_, ?_, ?_, ?_, ?_, hp, h2⟩ <;>
    simp only [generate_top_products_data, List.length_map, List.length_insertionSort, hlen]

/-! ### C9: the monthly rollup -/

/-- Twelve rows; the month column is exactly the twelve consecutive
first-of-month dates of 2023 in ascending order; the two money columns are
whole numbers of cents. -/
def MonthlyLawful (t : MonthlyTable) : Prop :=
  t.month = month_starts ∧
  List.Pairwise (· < ·) t.month ∧
  t.month.map monthOfDay = [1, 2, 3, 4, 5, 6, 7, 8, 9, 10, 11, 12] ∧
  t.month.length = 12 ∧ t.total_revenue.length = 12 ∧ t.total_orders.length = 12 ∧
  t.avg_order_value.length = 12 ∧ t.customer_count.length = 12 ∧
  t.new_customers.length = 12 ∧
  (∀ x ∈ t.total_revenue, ∃ k : ℤ, x = (k : ℚ) / 100) ∧
  (∀ x ∈ t.avg_order_value, ∃ k : ℤ, x = (k : ℚ) / 100)

/-- C9: for every random stream, `generate_monthly_demo_data` returns exactly
twelve rows whose month column is the twelve distinct consecutive
first-of-month dates of 2023 in ascending order, with both money columns
rounded to two decimals (whole cents). -/
theorem monthly_shape_ok :
    ∀ e : MonthlyEntropy, MonthlyLawful (generate_monthly_demo_data e) := by
  intro e
  refine ⟨rfl, ?_, rfl, rfl, ?_, ?_, ?_, ?_, ?_, ?_, ?_⟩
  · show List.Pairwise (· < ·) month_starts
    norm_num [month_starts, List.pairwise_cons]
  · simp [generate_monthly_demo_data]
  · simp [generate_monthly_demo_data]
  · simp [generate_monthly_demo_data]
  · simp [generate_monthly_demo_data]
  · simp [generate_monthly_demo_data]
  · intro x hx
    simp only [generate_monthly_demo_data, List.mem_map] at hx
    obtain ⟨y, -, rfl⟩ := hx
    exact round2_cent y
  · intro x hx
    simp only [generate_monthly_demo_data, List.mem_map] at hx
    obtain ⟨y, -, rfl⟩ := hx
    exact round2_cent y

/-! ### C10: the two inlined copies agree -/

/-- C10: the generator copies in `app.py` are extensionally equal to those in
`demo_data.py`: for every record count and random stream both detailed
generators return the same table (or both fail), and the monthly and
top-products copies agree on every stream. -/
theorem app_copies_extensionally_equal :
    (∀ (n : ℕ) (e : Entropy), App.generate_demo_data n e = generate_demo_data n e) ∧
    (∀ e : MonthlyEntropy, App.generate_monthly_demo_data e = generate_monthly_demo_data e) ∧
    (∀ e : TopEntropy, App.generate_top_products_data e = generate_top_products_data e) :=
  ⟨fun _ _ => rfl, fun _ => rfl, fun _ => rfl⟩

/-! ### C4: quantity bounds -/

/-- As the claim states it: every in-range quantity entry is at least one. -/
def QuantityGE1 (o : Option Table) : Prop :=
  ∀ t ∈ o, ∀ i : ℕ, i < t.quantity.length → 1 ≤ t.quantity.getD i 0

/-- What the code guarantees: quantities are nonnegative, and at least one
whenever the row's month has seasonal multiplier at least one (months
April through December). -/
def QuantityLawful (o : Option Table) : Prop :=
  ∀ t ∈ o, ∀ i : ℕ,
    0 ≤ t.quantity.getD i 0 ∧
    (4 ≤ monthOfDay (t.date.getD i 0) → 1 ≤ t.quantity.getD i 0)

/-- C4 (amended): in every produced table every quantity is nonnegative, and
a row whose date falls in April through December (seasonal multiplier at least
one) has quantity at least one.  In January through March the multiplier is
below one and `int((poisson+1) * multiplier)` can truncate to zero. -/
theorem quantity_nonneg_high_season_pos :
    ∀ (n : ℕ) (e : Entropy), QuantityLawful (generate_demo_data n e) := by
  intro n e t ht i
  rw [eq_mkTable_of_mem ht]
  show 0 ≤ (quantitiesList n e).getD i 0 ∧
    (4 ≤ monthOfDay ((datesList n e).getD i 0) → 1 ≤ (quantitiesList n e).getD i 0)
  by_cases hi : i < n
  · have hq : (quantitiesList n e).getD i 0 =
        pyInt ((e.pois i + 1 : ℚ) * multOf (monthOfDay ((datesList n e).getD i 0))) := by
      unfold quantitiesList
      rw [getD_range_map, if_pos hi]
    rw [hq]
    have hp0 : (0 : ℚ) ≤ (e.pois i : ℚ) := by positivity
    have hm := multOf_monthOfDay_ge ((datesList n e).getD i 0)
    constructor
    · exact pyInt_nonneg (by nlinarith)
    · intro h4
      have hm1 := one_le_multOf_of_month_ge h4
      exact one_le_pyInt (by nlinarith)
  · have hq : (quantitiesList n e).getD i 0 = 0 := by
      unfold quantitiesList
      rw [getD_range_map, if_neg hi]
    have hd : (datesList n e).getD i 0 = 0 :=
      List.getD_eq_default _ _ (by rw [datesList_length]; omega)
    rw [hq, hd]
    refine ⟨le_refl 0, fun h4 => absurd h4 ?_⟩
    rw [show monthOfDay 0 = 1 from rfl]
    omega

/-- The concrete admissible stream refuting C4 as stated: every date draw is
zero (so every row lands on 2023-01-01, multiplier 0.8) and every Poisson draw
is zero, so every quantity is `int(1 * 0.8) = 0`. -/
def ceqEntropy : Entropy where
  rand := fun _ => 0
  prodIdx := fun _ => 0
  regionIdx := fun _ => 0
  channelIdx := fun _ => 0
  segmentIdx := fun _ => 0
  priceU := fun _ => 0
  pois := fun _ => 0
  costU := fun _ => 0
  custDraw := fun _ => 0
  repIdx := fun _ => 0

theorem ceq_dates : datesList 3 ceqEntropy = [0, 0, 0] := by
  unfold datesList
  rw [show (List.range 3).map (fun i => ceqEntropy.rand i * 365) = [0, 0, 0] by
    norm_num [ceqEntropy, List.range_succ]]
  norm_num [List.insertionSort, List.orderedInsert, pyInt]

theorem ceq_quantity : (quantitiesList 3 ceqEntropy).getD 0 0 = 0 := by
  unfold quantitiesList
  rw [getD_range_map, if_pos (by norm_num : (0 : ℕ) < 3), ceq_dates]
  rw [show ([0, 0, 0] : List ℕ).getD 0 0 = 0 from rfl,
    show monthOfDay 0 = 1 from rfl, multOf_one]
  norm_num [ceqEntropy, pyInt, Int.floor_eq_iff]

/-- C4 (counterexample): the claim "every row has quantity at least 1 for
every count and admissible stream" is false: with three records, all dates on
2023-01-01 and Poisson draws zero, row 0 has quantity 0. -/
theorem quantity_ge_one_counterexample :
    ¬ (∀ (n : ℕ) (e : Entropy), 1 ≤ n → e.Admissible →
        QuantityGE1 (generate_demo_data n e)) := by
  intro h
  have hadm : ceqEntropy.Admissible := by
    refine ⟨fun i => ⟨?_, ?_⟩, fun i => ?_, fun i => ?_, fun i => ?_, fun i => ?_,
      fun i => ⟨?_, ?_⟩, fun i => ⟨?_, ?_⟩, fun i => ?_⟩ <;> norm_num [ceqEntropy]
  have h3 := h 3 ceqEntropy (by norm_num) hadm
  have hmem : mkTable 3 ceqEntropy ((List.range 3).map fun i => 1 + ceqEntropy.custDraw i % (3 / 3))
      ∈ generate_demo_data 3 ceqEntropy :=
    Option.mem_def.mpr (generate_demo_data_eq_some 3 ceqEntropy (by norm_num))
  have hlen : (0 : ℕ) < (quantitiesList 3 ceqEntropy).length := by
    simp [quantitiesList]
  have h5 : (1 : ℤ) ≤ (quantitiesList 3 ceqEntropy).getD 0 0 := h3 _ hmem 0 hlen
  rw [ceq_quantity] at h5
  exact absurd h5 (by norm_num)

/-! ### C5: derived-field consistency up to rounding -/

theorem round2_mul_bound (p : ℚ) (q : ℤ) (hq : 0 ≤ q) :
    |round2 (p * (q : ℚ)) - round2 p * (q : ℚ)| ≤ (1 + (q : ℚ)) / 200 := by
  have hqq : (0 : ℚ) ≤ (q : ℚ) := by exact_mod_cast hq
  have h1 := abs_round2_sub (p * (q : ℚ))
  have h2 := abs_round2_sub p
  have h3 : |round2 p * (q : ℚ) - p * (q : ℚ)| = |round2 p - p| * (q : ℚ) := by
    rw [show round2 p * (q : ℚ) - p * (q : ℚ) = (round2 p - p) * (q : ℚ) by ring, abs_mul,
      abs_of_nonneg hqq]
  have h4 : |round2 p - p| * (q : ℚ) ≤ (1 / 200) * (q : ℚ) :=
    mul_le_mul_of_nonneg_right h2 hqq
  calc |round2 (p * (q : ℚ)) - round2 p * (q : ℚ)|
      ≤ |round2 (p * (q : ℚ)) - p * (q : ℚ)| + |p * (q : ℚ) - round2 p * (q : ℚ)| :=
        abs_sub_le _ _ _
    _ = |round2 (p * (q : ℚ)) - p * (q : ℚ)| + |round2 p - p| * (q : ℚ) := by
        rw [abs_sub_comm (p * (q : ℚ)), h3]
    _ ≤ 1 / 200 + (1 / 200) * (q : ℚ) := by linarith
    _ = (1 + (q : ℚ)) / 200 := by ring

theorem round2_sub_bound (r c : ℚ) :
    |round2 (r - c) - (round2 r - round2 c)| ≤ 3 / 200 := by
  have h1 := abs_round2_sub (r - c)
  have h2 := abs_round2_sub r
  have h3 := abs_round2_sub c
  rw [abs_le] at h1 h2 h3 ⊢
  constructor <;> linarith [h1.1, h1.2, h2.1, h2.2, h3.1, h3.2]

/-- As the claim states it: the stored (rounded) revenue, unit price,
quantity, cost and profit of every row agree to within `1e-6`. -/
def DerivedStrictConsistent (o : Option Table) : Prop :=
  ∀ t ∈ o, ∀ i : ℕ,
    |t.revenue.getD i 0 - t.unit_price.getD i 0 * (t.quantity.getD i 0 : ℚ)| < 1 / 1000000 ∧
    |t.profit.getD i 0 - (t.revenue.getD i 0 - t.cost.getD i 0)| < 1 / 1000000

/-- What the code guarantees: the stored values agree up to the rounding
granularity — half a cent on each independently rounded money value. -/
def DerivedNearConsistent (o : Option Table) : Prop :=
  ∀ t ∈ o, ∀ i : ℕ,
    |t.revenue.getD i 0 - t.unit_price.getD i 0 * (t.quantity.getD i 0 : ℚ)| ≤
      (1 + (t.quantity.getD i 0 : ℚ)) / 200 ∧
    |t.profit.getD i 0 - (t.revenue.getD i 0 - t.cost.getD i 0)| ≤ 3 / 200

/-- C5 (amended): in every produced table and for every row index, the stored
revenue differs from stored-unit-price times quantity by at most
`(1 + quantity) / 200` (the accumulated half-cent roundings), and the stored
profit differs from stored revenue minus stored cost by at most `3 / 200`;
the claimed `1e-6` tolerance is what fails, not consistency itself. -/
theorem derived_fields_within_rounding :
    ∀ (n : ℕ) (e : Entropy), DerivedNearConsistent (generate_demo_data n e) := by
  intro n e t ht i
  rw [eq_mkTable_of_mem ht]
  show |((revenueList n e).map round2).getD i 0 -
        ((pricesList n e).map round2).getD i 0 * (((quantitiesList n e).getD i 0 : ℤ) : ℚ)| ≤
      (1 + (((quantitiesList n e).getD i 0 : ℤ) : ℚ)) / 200 ∧
    |((profitList n e).map round2).getD i 0 -
        (((revenueList n e).map round2).getD i 0 - ((costsList n e).map round2).getD i 0)| ≤
      3 / 200
  by_cases hi : i < n
  · have hlr : i < (revenueList n e).length := by simpa [revenueList] using hi
    have hlp : i < (pricesList n e).length := by simpa [pricesList] using hi
    have hlc : i < (costsList n e).length := by simpa [costsList] using hi
    have hlf : i < (profitList n e).length := by simpa [profitList] using hi
    rw [getD_map_of_lt round2 _ hlr 0 0, getD_map_of_lt round2 _ hlp 0 0,
      getD_map_of_lt round2 _ hlc 0 0, getD_map_of_lt round2 _ hlf 0 0]
    set P := (pricesList n e).getD i 0 with hsetP
    set Q := (quantitiesList n e).getD i 0 with hsetQ
    set C := (costsList n e).getD i 0 with hsetC
    have hrev : (revenueList n e).getD i 0 = P * (Q : ℚ) := by
      rw [hsetP, hsetQ]
      unfold revenueList
      rw [getD_range_map, if_pos hi]
    have hprof : (profitList n e).getD i 0 = (revenueList n e).getD i 0 - C := by
      rw [hsetC]
      unfold profitList
      rw [getD_range_map, if_pos hi]
    have hqnn : (0 : ℤ) ≤ Q := by
      rw [hsetQ]
      unfold quantitiesList
      rw [getD_range_map, if_pos hi]
      have hp0 : (0 : ℚ) ≤ (e.pois i : ℚ) := by positivity
      have hm := multOf_monthOfDay_ge ((datesList n e).getD i 0)
      exact pyInt_nonneg (by nlinarith)
    rw [hrev, hprof, hrev]
    exact ⟨round2_mul_bound P Q hqnn, round2_sub_bound (P * (Q : ℚ)) C⟩
  · have hmaplen : ∀ l : List ℚ, l.length = n → (l.map round2).getD i 0 = 0 := by
      intro l hl
      refine List.getD_eq_default _ _ ?_
      rw [List.length_map, hl]
      omega
    have hq : (quantitiesList n e).getD i 0 = 0 := by
      unfold quantitiesList
      rw [getD_range_map, if_neg hi]
    rw [hmaplen (revenueList n e) (by simp [revenueList]),
      hmaplen (pricesList n e) (by simp [pricesList]),
      hmaplen (costsList n e) (by simp [costsList]),
      hmaplen (profitList n e) (by simp [profitList]), hq]
    norm_num

/-- The concrete admissible stream refuting the `1e-6` tolerance: every row is
a Mouse (base price 50) with price jitter `0.8 + 0.0007 = 0.8007`, date
2023-04-11 (day 100, multiplier 1.0) and Poisson draw 1, so quantity 2,
price `40.035`, stored revenue `round(80.07) = 80.07` but stored unit price
`round(40.035) = 40.04`, and `|80.07 - 40.04 * 2| = 0.01`. -/
def cerEntropy : Entropy where
  rand := fun _ => 20 / 73
  prodIdx := fun _ => 4
  regionIdx := fun _ => 0
  channelIdx := fun _ => 0
  segmentIdx := fun _ => 0
  priceU := fun _ => 7 / 4000
  pois := fun _ => 1
  costU := fun _ => 1 / 3
  custDraw := fun _ => 0
  repIdx := fun _ => 0

theorem cer_dates : datesList 3 cerEntropy = [100, 100, 100] := by
  unfold datesList
  rw [show (List.range 3).map (fun i => cerEntropy.rand i * 365) = [100, 100, 100] by
    norm_num [cerEntropy, List.range_succ]]
  norm_num [List.insertionSort, List.orderedInsert, pyInt, Int.floor_eq_iff]
  decide

theorem cer_price : (pricesList 3 cerEntropy).getD 0 0 = 8007 / 200 := by
  unfold pricesList
  rw [getD_range_map, if_pos (by norm_num : (0 : ℕ) < 3)]
  rw [show (productList 3 cerEntropy).getD 0 "" = "Mouse" by
    unfold productList
    rw [getD_range_map, if_pos (by norm_num : (0 : ℕ) < 3)]
    rfl]
  rw [show basePriceOf "Mouse" = 50 from rfl]
  norm_num [numpyUniform, cerEntropy]

theorem cer_quantity : (quantitiesList 3 cerEntropy).getD 0 0 = 2 := by
  unfold quantitiesList
  rw [getD_range_map, if_pos (by norm_num : (0 : ℕ) < 3), cer_dates]
  rw [show ([100, 100, 100] : List ℕ).getD 0 0 = 100 from rfl,
    show monthOfDay 100 = 4 from rfl, multOf_four]
  norm_num [cerEntropy, pyInt, Int.floor_eq_iff]

theorem cer_revenue : (revenueList 3 cerEntropy).getD 0 0 = 8007 / 100 := by
  unfold revenueList
  rw [getD_range_map, if_pos (by norm_num : (0 : ℕ) < 3), cer_price, cer_quantity]
  norm_num

theorem round2_cer_revenue : round2 (8007 / 100 : ℚ) = 8007 / 100 := by
  unfold round2
  rw [show (100 : ℚ) * (8007 / 100) = 8007 by norm_num]
  rw [show roundHalfEven (8007 : ℚ) = 8007 by
    unfold roundHalfEven
    rw [show ⌊(8007 : ℚ)⌋ = 8007 by norm_num [Int.floor_eq_iff]]
    norm_num]
  norm_num

theorem round2_cer_price : round2 (8007 / 200 : ℚ) = 1001 / 25 := by
  unfold round2
  rw [show (100 : ℚ) * (8007 / 200) = 8007 / 2 by norm_num]
  rw [show roundHalfEven (8007 / 2 : ℚ) = 4004 by
    unfold roundHalfEven
    rw [show ⌊(8007 / 2 : ℚ)⌋ = 4003 by norm_num [Int.floor_eq_iff]]
    rw [if_neg (by norm_num), if_neg (by norm_num), if_neg (by decide)]
    norm_num]
  norm_num

/-- C5 (counterexample): the claimed `1e-6` tolerance between stored rounded
fields is false: with three Mouse rows at price `40.035` and quantity 2, the
stored revenue is `80.07` while stored unit price times quantity is `80.08`,
an error of a full cent. -/
theorem derived_fields_tolerance_counterexample :
    ¬ (∀ (n : ℕ) (e : Entropy), 1 ≤ n → e.Admissible →
        DerivedStrictConsistent (generate_demo_data n e)) := by
  intro h
  have hadm : cerEntropy.Admissible := by
    refine ⟨fun i => ⟨?_, ?_⟩, fun i => ?_, fun i => ?_, fun i => ?_, fun i => ?_,
      fun i => ⟨?_, ?_⟩, fun i => ⟨?_, ?_⟩, fun i => ?_⟩ <;> norm_num [cerEntropy]
  have h3 := h 3 cerEntropy (by norm_num) hadm
  have hmem : mkTable 3 cerEntropy ((List.range 3).map fun i => 1 + cerEntropy.custDraw i % (3 / 3))
      ∈ generate_demo_data 3 cerEntropy :=
    Option.mem_def.mpr (generate_demo_data_eq_some 3 cerEntropy (by norm_num))
  have h6 : |((revenueList 3 cerEntropy).map round2).getD 0 0 -
      ((pricesList 3 cerEntropy).map round2).getD 0 0 *
        (((quantitiesList 3 cerEntropy).getD 0 0 : ℤ) : ℚ)| < 1 / 1000000 :=
    (h3 _ hmem 0).1
  rw [getD_map_of_lt round2 _ (by simp [revenueList] : (0 : ℕ) < (revenueList 3 cerEntropy).length) 0 0,
    getD_map_of_lt round2 _ (by simp [pricesList] : (0 : ℕ) < (pricesList 3 cerEntropy).length) 0 0,
    cer_revenue, cer_price, cer_quantity, round2_cer_revenue, round2_cer_price] at h6
  rw [show ((2 : ℤ) : ℚ) = 2 by norm_cast] at h6
  rw [show (8007 / 100 : ℚ) - 1001 / 25 * 2 = -(1 / 100) by ring, abs_neg,
    abs_of_pos (by norm_num)] at h6
  exact absurd h6 (by norm_num)
